import Mathlib

/-!
Shallow embedding of the movement/integration logic of `src/main.js`
(first-person viewer: WASD movement, sprint, jump, gravity, ground clamp,
pointer-lock gating).  Floating-point arithmetic is modelled over `ℝ`.
-/

namespace Metaverse

/-- Embedding of `THREE.Vector3` as used by `main.js`: three real components. -/
structure Vec3 where
  x : ℝ
  y : ℝ
  z : ℝ

/-- Euclidean length of a `Vec3` (`THREE.Vector3.length`). -/
noncomputable def Vec3.len (v : Vec3) : ℝ :=
  Real.sqrt (v.x ^ 2 + v.y ^ 2 + v.z ^ 2)

/-- Embedding of `THREE.Vector3.normalize`: divide each component by the
length, or by `1` when the length is `0` (`divideScalar(this.length() || 1)`),
so the zero vector is left unchanged. -/
noncomputable def Vec3.normalize (v : Vec3) : Vec3 :=
  let l := if Vec3.len v = 0 then 1 else Vec3.len v
  ⟨v.x / l, v.y / l, v.z / l⟩

/-- Length of the lateral (x,z) part of a velocity vector. -/
noncomputable def lateralMag (v : Vec3) : ℝ :=
  Real.sqrt (v.x ^ 2 + v.z ^ 2)

/-- Constant `speed = 50.0` (base walking speed), `main.js` line 88. -/
def speed : ℝ := 50.0

/-- Constant `sprintMultiplier = 2.0`, `main.js` line 89. -/
def sprintMultiplier : ℝ := 2.0

/-- Constant `gravity = 30.0` (downward acceleration), `main.js` line 90. -/
def gravity : ℝ := 30.0

/-- Constant `jumpVelocity = 12` (jump strength), `main.js` line 91. -/
def jumpVelocity : ℝ := 12

/-- The mutable program state of `main.js`: the input flags, the `canJump`
flag, the `velocity` vector, the camera position, the camera yaw (owned by the
external controls, read-only here), and the pointer-lock engaged state
`controls.isLocked`. -/
structure State where
  moveForward : Bool
  moveBackward : Bool
  moveLeft : Bool
  moveRight : Bool
  isSprinting : Bool
  canJump : Bool
  velocity : Vec3
  posX : ℝ
  posY : ℝ
  posZ : ℝ
  yaw : ℝ
  isLocked : Bool

/-- Initial state of `main.js`: all flags `false`, `canJump = false`
(line 84), `velocity = (0,0,0)` (line 86), camera at `y = 2`, `z = 0`
(lines 64-65, x defaults to 0), pointer lock disengaged. -/
def initState : State :=
  { moveForward := false, moveBackward := false, moveLeft := false
    moveRight := false, isSprinting := false, canJump := false
    velocity := ⟨0, 0, 0⟩, posX := 0, posY := 2, posZ := 0
    yaw := 0, isLocked := false }

/-- JavaScript `Number` applied to a boolean: `true ↦ 1`, `false ↦ 0`. -/
def boolToReal (b : Bool) : ℝ := if b then 1 else 0

/-- The `onKeyDown` handler of `main.js` (lines 94-121), as a state
transformer: the `switch` on `event.code` sets the matching movement or
sprint flag; `Space` jumps only when `canJump` holds; other codes are
ignored. -/
def onKeyDown (code : String) (s : State) : State :=
  if code = "KeyW" then { s with moveForward := true }
  else if code = "KeyS" then { s with moveBackward := true }
  else if code = "KeyA" then { s with moveLeft := true }
  else if code = "KeyD" then { s with moveRight := true }
  else if code = "ShiftLeft" ∨ code = "ShiftRight" then { s with isSprinting := true }
  else if code = "Space" then
    if s.canJump then
      { s with velocity := { s.velocity with y := jumpVelocity }, canJump := false }
    else s
  else s

/-- The `onKeyUp` handler of `main.js` (lines 123-144): clears the matching
movement or sprint flag; other codes are ignored. -/
def onKeyUp (code : String) (s : State) : State :=
  if code = "KeyW" then { s with moveForward := false }
  else if code = "KeyS" then { s with moveBackward := false }
  else if code = "KeyA" then { s with moveLeft := false }
  else if code = "KeyD" then { s with moveRight := false }
  else if code = "ShiftLeft" ∨ code = "ShiftRight" then { s with isSprinting := false }
  else s

/-- The per-frame input direction (`main.js` lines 169-171):
`direction.z = Number(moveForward) - Number(moveBackward)`,
`direction.x = Number(moveRight) - Number(moveLeft)`, then
`direction.normalize()`.  The global `direction.y` stays `0` forever
(it is initialised to `0` and `normalize` preserves `0`). -/
noncomputable def inputDirection (f b l r : Bool) : Vec3 :=
  Vec3.normalize ⟨boolToReal r - boolToReal l, 0, boolToReal f - boolToReal b⟩

/-- Velocity after the velocity-update phase of one engaged frame
(`main.js` lines 159-179): lateral damping, gravity, then the flag-gated
acceleration from the normalized input direction at the current
(walk or sprint) speed. -/
noncomputable def stepVelocity (dt : ℝ) (s : State) : Vec3 :=
  let vx1 := s.velocity.x - s.velocity.x * 10.0 * dt
  let vz1 := s.velocity.z - s.velocity.z * 10.0 * dt
  let vy1 := s.velocity.y - gravity * dt
  let currentSpeed := if s.isSprinting then speed * sprintMultiplier else speed
  let dir := inputDirection s.moveForward s.moveBackward s.moveLeft s.moveRight
  let vz2 := if s.moveForward ∨ s.moveBackward then vz1 - dir.z * currentSpeed * dt else vz1
  let vx2 := if s.moveLeft ∨ s.moveRight then vx1 - dir.x * currentSpeed * dt else vx1
  ⟨vx2, vy1, vz2⟩

/-- Vertical position after `controls.object.position.y += velocity.y * delta`
(`main.js` line 186), before the ground clamp. -/
noncomputable def preClampY (dt : ℝ) (s : State) : ℝ :=
  s.posY + (stepVelocity dt s).y * dt

/-- Modelled from the spec: the external pointer-lock controls'
orientation-aware `moveRight(distance)` primitive, which translates the
camera along its current right vector on the ground plane; the source of
`PointerLockControls` is not in this repository.  Returns the new (x, z). -/
noncomputable def controlsMoveRight (yaw d : ℝ) (x z : ℝ) : ℝ × ℝ :=
  (x + d * Real.cos yaw, z - d * Real.sin yaw)

/-- Modelled from the spec: the external pointer-lock controls'
orientation-aware `moveForward(distance)` primitive, which translates the
camera along its current look direction projected on the ground plane. -/
noncomputable def controlsMoveForward (yaw d : ℝ) (x z : ℝ) : ℝ × ℝ :=
  (x - d * Real.sin yaw, z - d * Real.cos yaw)

/-- One call of the `animate` frame callback of `main.js` (lines 152-198),
without the render pass: when `controls.isLocked` the velocity update,
the lateral translation through the controls primitives, the vertical
translation, and the ground clamp at `y = 2`; otherwise no state change. -/
noncomputable def animateStep (dt : ℝ) (s : State) : State :=
  if s.isLocked then
    let v := stepVelocity dt s
    let p1 := controlsMoveRight s.yaw (-v.x * dt) s.posX s.posZ
    let p2 := controlsMoveForward s.yaw (-v.z * dt) p1.1 p1.2
    let py := s.posY + v.y * dt
    if py < 2 then
      { s with velocity := ⟨v.x, 0, v.z⟩, posX := p2.1, posZ := p2.2
               posY := 2, canJump := true }
    else
      { s with velocity := v, posX := p2.1, posZ := p2.2, posY := py }
  else s

/-- An externally driven event: a key-down or key-up with its code, one
frame callback with its elapsed time, or a pointer-lock engage/disengage. -/
inductive Event where
  | keyDown (code : String)
  | keyUp (code : String)
  | frame (dt : ℝ)
  | lock
  | unlock

/-- Effect of one event on the program state. -/
noncomputable def applyEvent : Event → State → State
  | .keyDown c, s => onKeyDown c s
  | .keyUp c, s => onKeyUp c s
  | .frame dt, s => animateStep dt s
  | .lock, s => { s with isLocked := true }
  | .unlock, s => { s with isLocked := false }

/-- An event is valid when a frame's elapsed time is non-negative
(`clock.getDelta()` never returns a negative value). -/
def Event.valid : Event → Prop
  | .frame dt => 0 ≤ dt
  | _ => True

/-- States reachable from the initial state by valid events. -/
inductive Reachable : State → Prop where
  | init : Reachable initState
  | step : ∀ {s : State} (e : Event), Reachable s → Event.valid e →
      Reachable (applyEvent e s)

/-- Iterate the frame callback over a list of elapsed times. -/
noncomputable def runFrames (s : State) : List ℝ → State
  | [] => s
  | dt :: rest => runFrames (animateStep dt s) rest

/-- Modelled from the spec (§4.2 steps 1, 2, 3, 5): the reference velocity
update — damp each lateral component by `component * 10.0 * dt`, lower the
vertical velocity by `30.0 * dt` unconditionally, and for each axis whose
flag pair is active add `-direction.axis * effectiveSpeed * dt`, where the
effective speed is `50.0`, doubled to `100.0` while sprinting. -/
noncomputable def specVelocityUpdate (dt : ℝ) (s : State) : Vec3 :=
  let eff : ℝ := if s.isSprinting then 100.0 else 50.0
  let d := inputDirection s.moveForward s.moveBackward s.moveLeft s.moveRight
  let vx := s.velocity.x - s.velocity.x * 10.0 * dt
  let vz := s.velocity.z - s.velocity.z * 10.0 * dt
  ⟨(if s.moveLeft ∨ s.moveRight then vx + -d.x * eff * dt else vx),
   s.velocity.y - 30.0 * dt,
   (if s.moveForward ∨ s.moveBackward then vz + -d.z * eff * dt else vz)⟩

/-- Auxiliary invariant: whenever `canJump` holds, the camera rests at
ground height with non-positive vertical velocity. -/
def GroundInv (s : State) : Prop :=
  s.canJump = true → s.posY = 2 ∧ s.velocity.y ≤ 0

/-- An engaged state drifting right at lateral speed 1, otherwise initial. -/
noncomputable def driftState : State :=
  { initState with isLocked := true, velocity := ⟨1, 0, 0⟩ }

/-- An engaged state slightly above the ground whose next vertical update
with `dt = 1/10` lands exactly at `y = 2`. -/
noncomputable def apexState : State :=
  { initState with isLocked := true, posY := 23/10 }

/-- The state reached from the initial state by engaging the pointer lock
and running one frame of one second: the clamp has fired. -/
noncomputable def landedState : State :=
  animateStep 1 { initState with isLocked := true }

/-- A disengaged state that is resting on the ground with `canJump` set. -/
def restingUnlockedState : State :=
  { initState with canJump := true }

/-! Helper lemmas about the step functions. -/

lemma animateStep_not_locked (dt : ℝ) (s : State) (h : s.isLocked = false) :
    animateStep dt s = s := by
  simp [animateStep, h]

lemma stepVelocity_y (dt : ℝ) (s : State) :
    (stepVelocity dt s).y = s.velocity.y - gravity * dt := rfl

lemma stepVelocity_x_noKeys (dt : ℝ) (s : State)
    (hl : s.moveLeft = false) (hr : s.moveRight = false) :
    (stepVelocity dt s).x = s.velocity.x - s.velocity.x * 10.0 * dt := by
  simp [stepVelocity, hl, hr]

lemma stepVelocity_z_noKeys (dt : ℝ) (s : State)
    (hf : s.moveForward = false) (hb : s.moveBackward = false) :
    (stepVelocity dt s).z = s.velocity.z - s.velocity.z * 10.0 * dt := by
  simp [stepVelocity, hf, hb]

lemma animateStep_locked_clamp (dt : ℝ) (s : State) (h : s.isLocked = true)
    (hpy : preClampY dt s < 2) :
    (animateStep dt s).velocity.y = 0 ∧ (animateStep dt s).posY = 2 ∧
      (animateStep dt s).canJump = true := by
  unfold preClampY at hpy
  simp only [animateStep, h, if_true]
  rw [if_pos hpy]
  exact ⟨rfl, rfl, rfl⟩

lemma animateStep_locked_noClamp (dt : ℝ) (s : State) (h : s.isLocked = true)
    (hpy : 2 ≤ preClampY dt s) :
    (animateStep dt s).velocity = stepVelocity dt s ∧
      (animateStep dt s).posY = preClampY dt s ∧
      (animateStep dt s).canJump = s.canJump := by
  unfold preClampY at hpy ⊢
  simp only [animateStep, h, if_true]
  rw [if_neg (not_lt.mpr hpy)]
  exact ⟨rfl, rfl, rfl⟩

lemma animateStep_posY_ge (dt : ℝ) (s : State) (h : s.isLocked = true) :
    2 ≤ (animateStep dt s).posY := by
  simp only [animateStep, h, if_true]
  split
  · exact le_refl 2
  · next hpy => exact le_of_not_lt hpy

lemma animateStep_flags (dt : ℝ) (s : State) :
    (animateStep dt s).moveForward = s.moveForward ∧
    (animateStep dt s).moveBackward = s.moveBackward ∧
    (animateStep dt s).moveLeft = s.moveLeft ∧
    (animateStep dt s).moveRight = s.moveRight ∧
    (animateStep dt s).isSprinting = s.isSprinting ∧
    (animateStep dt s).isLocked = s.isLocked := by
  unfold animateStep
  split
  · refine ⟨?_, ?_, ?_, ?_, ?_, ?_⟩ <;> (dsimp only; split <;> rfl)
  · exact ⟨rfl, rfl, rfl, rfl, rfl, rfl⟩

lemma onKeyDown_posY (c : String) (s : State) : (onKeyDown c s).posY = s.posY := by
  unfold onKeyDown
  split_ifs <;> rfl

lemma onKeyUp_posY (c : String) (s : State) : (onKeyUp c s).posY = s.posY := by
  unfold onKeyUp
  split_ifs <;> rfl

lemma onKeyDown_groundInv (c : String) (s : State) (h : GroundInv s) :
    GroundInv (onKeyDown c s) := by
  unfold onKeyDown
  split_ifs with h1 h2 h3 h4 h5 h6 h7 <;>
    simp_all [GroundInv]

lemma onKeyUp_groundInv (c : String) (s : State) (h : GroundInv s) :
    GroundInv (onKeyUp c s) := by
  unfold onKeyUp
  split_ifs <;> simp_all [GroundInv]

lemma animateStep_groundInv (dt : ℝ) (s : State) (hdt : 0 ≤ dt)
    (h : GroundInv s) : GroundInv (animateStep dt s) := by
  by_cases hl : s.isLocked = true
  · by_cases hpy : preClampY dt s < 2
    · obtain ⟨hv, hy, _⟩ := animateStep_locked_clamp dt s hl hpy
      intro _
      exact ⟨hy, le_of_eq hv⟩
    · push_neg at hpy
      obtain ⟨hv, hy, hc⟩ := animateStep_locked_noClamp dt s hl hpy
      intro hcj
      rw [hc] at hcj
      obtain ⟨hy2, hvy⟩ := h hcj
      have hvy1 : (stepVelocity dt s).y ≤ 0 := by
        rw [stepVelocity_y]
        have : 0 ≤ gravity * dt := by
          unfold gravity; positivity
        linarith
      have hple : preClampY dt s ≤ 2 := by
        unfold preClampY
        nlinarith
      constructor
      · rw [hy]; linarith
      · rw [hv]; exact hvy1
  · rw [animateStep_not_locked dt s (by simpa using hl)]
    exact h

lemma reachable_groundInv {s : State} (h : Reachable s) : GroundInv s := by
  induction h with
  | init => intro hc; simp [initState] at hc
  | step e hr hv ih =>
    cases e with
    | keyDown c => exact onKeyDown_groundInv c _ ih
    | keyUp c => exact onKeyUp_groundInv c _ ih
    | frame dt => exact animateStep_groundInv dt _ hv ih
    | lock => intro hc; exact ih hc
    | unlock => intro hc; exact ih hc

lemma Vec3.eq_of (a b : Vec3) (hx : a.x = b.x) (hy : a.y = b.y)
    (hz : a.z = b.z) : a = b := by
  cases a
  cases b
  simp_all

lemma animateStep_velocity_x (dt : ℝ) (s : State) (h : s.isLocked = true) :
    (animateStep dt s).velocity.x = (stepVelocity dt s).x := by
  simp only [animateStep, h, if_true]
  split <;> rfl

lemma animateStep_velocity_z (dt : ℝ) (s : State) (h : s.isLocked = true) :
    (animateStep dt s).velocity.z = (stepVelocity dt s).z := by
  simp only [animateStep, h, if_true]
  split <;> rfl

lemma Vec3.len_normalize (v : Vec3) (h : Vec3.len v ≠ 0) :
    Vec3.len (Vec3.normalize v) = 1 := by
  have hS : 0 ≤ v.x ^ 2 + v.y ^ 2 + v.z ^ 2 := by positivity
  have hll : Vec3.len v ^ 2 = v.x ^ 2 + v.y ^ 2 + v.z ^ 2 := Real.sq_sqrt hS
  have hl2 : Vec3.len v ^ 2 ≠ 0 := pow_ne_zero 2 h
  unfold Vec3.normalize
  dsimp only
  rw [if_neg h]
  show Real.sqrt ((v.x / Vec3.len v) ^ 2 + (v.y / Vec3.len v) ^ 2 +
      (v.z / Vec3.len v) ^ 2) = 1
  have key : (v.x / Vec3.len v) ^ 2 + (v.y / Vec3.len v) ^ 2 +
      (v.z / Vec3.len v) ^ 2 = 1 := by
    field_simp
    linarith [hll]
  rw [key, Real.sqrt_one]

lemma sqrt_scale (c x z : ℝ) :
    Real.sqrt ((x * c) ^ 2 + (z * c) ^ 2) = |c| * Real.sqrt (x ^ 2 + z ^ 2) := by
  have : (x * c) ^ 2 + (z * c) ^ 2 = c ^ 2 * (x ^ 2 + z ^ 2) := by ring
  rw [this, Real.sqrt_mul (sq_nonneg c), Real.sqrt_sq_eq_abs]

lemma damp_bounds (v dt : ℝ) (h0 : 0 ≤ dt) (h1 : dt ≤ 1 / 10) :
    (0 ≤ v → 0 ≤ v - v * 10.0 * dt ∧ v - v * 10.0 * dt ≤ v) ∧
    (v ≤ 0 → v - v * 10.0 * dt ≤ 0 ∧ v ≤ v - v * 10.0 * dt) := by
  constructor
  · intro hv
    constructor <;> nlinarith
  · intro hv
    constructor <;> nlinarith

lemma step_lateral_bounds (dt : ℝ) (s : State)
    (hf : s.moveForward = false) (hb : s.moveBackward = false)
    (hl : s.moveLeft = false) (hr : s.moveRight = false)
    (h0 : 0 ≤ dt) (h1 : dt ≤ 1 / 10) :
    ((0 ≤ s.velocity.x →
        0 ≤ (animateStep dt s).velocity.x ∧
          (animateStep dt s).velocity.x ≤ s.velocity.x) ∧
     (s.velocity.x ≤ 0 →
        (animateStep dt s).velocity.x ≤ 0 ∧
          s.velocity.x ≤ (animateStep dt s).velocity.x)) ∧
    ((0 ≤ s.velocity.z →
        0 ≤ (animateStep dt s).velocity.z ∧
          (animateStep dt s).velocity.z ≤ s.velocity.z) ∧
     (s.velocity.z ≤ 0 →
        (animateStep dt s).velocity.z ≤ 0 ∧
          s.velocity.z ≤ (animateStep dt s).velocity.z)) := by
  by_cases hlk : s.isLocked = true
  · rw [animateStep_velocity_x dt s hlk, animateStep_velocity_z dt s hlk,
        stepVelocity_x_noKeys dt s hl hr, stepVelocity_z_noKeys dt s hf hb]
    exact ⟨damp_bounds _ dt h0 h1, damp_bounds _ dt h0 h1⟩
  · rw [animateStep_not_locked dt s (by simpa using hlk)]
    exact ⟨⟨fun h => ⟨h, le_refl _⟩, fun h => ⟨h, le_refl _⟩⟩,
           ⟨fun h => ⟨h, le_refl _⟩, fun h => ⟨h, le_refl _⟩⟩⟩

lemma reachable_posY {s : State} (h : Reachable s) : 2 ≤ s.posY := by
  induction h with
  | init => norm_num [initState]
  | step e hr hv ih =>
    rename_i t
    cases e with
    | keyDown c => rw [applyEvent, onKeyDown_posY]; exact ih
    | keyUp c => rw [applyEvent, onKeyUp_posY]; exact ih
    | frame dt =>
      by_cases hl : t.isLocked = true
      · exact animateStep_posY_ge dt _ hl
      · rw [applyEvent, animateStep_not_locked dt _ (by simpa using hl)]
        exact ih
    | lock => exact ih
    | unlock => exact ih

/-! Claim theorems. -/

/-- C1: for every sequence of valid events the camera's vertical position
stays at least 2, and after any engaged integration step it is at least 2;
whenever the vertical update would leave `position.y` below 2, the step
sets `velocity.y = 0`, `position.y = 2.0`, and `canJump = true`. -/
theorem claim1_ground_clamp :
    (∀ s : State, Reachable s → 2 ≤ s.posY) ∧
    (∀ (s : State) (dt : ℝ), s.isLocked = true →
      2 ≤ (animateStep dt s).posY ∧
      (preClampY dt s < 2 →
        (animateStep dt s).velocity.y = 0 ∧ (animateStep dt s).posY = 2 ∧
          (animateStep dt s).canJump = true)) := by
  constructor
  · intro s hs
    exact reachable_posY hs
  · intro s dt hl
    exact ⟨animateStep_posY_ge dt s hl, animateStep_locked_clamp dt s hl⟩

/-- Witness for C1: the initial state is at ground height, and a one-second
engaged frame from the initial state fires the clamp. -/
theorem claim1_ground_clamp_witness :
    2 ≤ initState.posY ∧
    ((animateStep 1 { initState with isLocked := true }).velocity.y = 0 ∧
      (animateStep 1 { initState with isLocked := true }).posY = 2 ∧
      (animateStep 1 { initState with isLocked := true }).canJump = true) :=
  ⟨claim1_ground_clamp.1 initState Reachable.init,
   (claim1_ground_clamp.2 { initState with isLocked := true } 1 rfl).2 (by
      rw [preClampY, stepVelocity_y]
      norm_num [initState, gravity])⟩

/-- C2: a Space key-down while `canJump` holds sets `velocity.y` to the jump
speed 12 and clears `canJump`, changing nothing else; while `canJump` is
false it changes nothing, and a repeated Space key-down is a no-op, so at
most one jump occurs per ground contact. -/
theorem claim2_jump_once :
    ∀ s : State,
      (s.canJump = true →
        onKeyDown "Space" s =
          { s with velocity := { s.velocity with y := jumpVelocity },
                   canJump := false }) ∧
      (s.canJump = false → onKeyDown "Space" s = s) ∧
      onKeyDown "Space" (onKeyDown "Space" s) = onKeyDown "Space" s := by
  intro s
  refine ⟨?_, ?_, ?_⟩
  · intro h
    simp [onKeyDown, h]
  · intro h
    simp [onKeyDown, h]
  · by_cases h : s.canJump = true
    · simp [onKeyDown, h]
    · simp [onKeyDown, h]

/-- Witness for C2: jumping from the grounded unlocked rest state sets
`velocity.y = 12` and clears `canJump`, and pressing Space again changes
nothing. -/
theorem claim2_jump_once_witness :
    onKeyDown "Space" restingUnlockedState =
      { restingUnlockedState with
          velocity := { restingUnlockedState.velocity with y := jumpVelocity },
          canJump := false } ∧
    onKeyDown "Space" (onKeyDown "Space" restingUnlockedState) =
      onKeyDown "Space" restingUnlockedState :=
  ⟨(claim2_jump_once restingUnlockedState).1 rfl,
   (claim2_jump_once restingUnlockedState).2.2⟩

/-- C3: while the pointer lock is disengaged a frame performs no state
change at all (velocity, position and `canJump` untouched), while key
events still update the movement flags. -/
theorem claim3_disengaged_pause :
    ∀ (s : State) (dt : ℝ), s.isLocked = false →
      animateStep dt s = s ∧
      (onKeyDown "KeyW" s).moveForward = true ∧
      (onKeyDown "KeyS" s).moveBackward = true ∧
      (onKeyDown "KeyA" s).moveLeft = true ∧
      (onKeyDown "KeyD" s).moveRight = true ∧
      (onKeyUp "KeyW" s).moveForward = false ∧
      (onKeyUp "KeyS" s).moveBackward = false ∧
      (onKeyUp "KeyA" s).moveLeft = false ∧
      (onKeyUp "KeyD" s).moveRight = false := by
  intro s dt h
  exact ⟨animateStep_not_locked dt s h, rfl, rfl, rfl, rfl, rfl, rfl, rfl, rfl⟩

/-- Witness for C3: at the (disengaged) initial state, a one-second frame
changes nothing and a `KeyW` key-down still sets the forward flag. -/
theorem claim3_disengaged_pause_witness :
    animateStep 1 initState = initState ∧
      (onKeyDown "KeyW" initState).moveForward = true :=
  ⟨(claim3_disengaged_pause initState 1 rfl).1,
   (claim3_disengaged_pause initState 1 rfl).2.1⟩

/-- C9: the jump mutation in the key-down handler is not gated by the
pointer-lock state: a Space key-down while disengaged and grounded still
sets `velocity.y = 12` and clears `canJump`, even though every frame is a
no-op until re-engagement. -/
theorem claim9_jump_ungated :
    ∀ s : State, s.isLocked = false → s.canJump = true →
      (onKeyDown "Space" s).velocity.y = jumpVelocity ∧
      (onKeyDown "Space" s).canJump = false ∧
      (∀ dt : ℝ, animateStep dt s = s) := by
  intro s _ hc
  refine ⟨?_, ?_, fun dt => animateStep_not_locked dt s ‹s.isLocked = false›⟩
  · simp [onKeyDown, hc]
  · simp [onKeyDown, hc]

/-- Witness for C9: in the grounded, disengaged rest state a Space
key-down jumps although frames are suppressed. -/
theorem claim9_jump_ungated_witness :
    (onKeyDown "Space" restingUnlockedState).velocity.y = jumpVelocity ∧
    (onKeyDown "Space" restingUnlockedState).canJump = false ∧
    animateStep 1 restingUnlockedState = restingUnlockedState :=
  ⟨(claim9_jump_ungated restingUnlockedState rfl rfl).1,
   (claim9_jump_ungated restingUnlockedState rfl rfl).2.1,
   (claim9_jump_ungated restingUnlockedState rfl rfl).2.2 1⟩

/-- C10: the ground clamp uses a strict comparison: when the updated
vertical position is at least 2 the clamp branch does not run, so the
position keeps its updated value, `velocity.y` keeps its post-gravity
(possibly negative) value and `canJump` is unchanged; `canJump` can become
newly true only in a step whose updated position is strictly below 2. -/
theorem claim10_strict_clamp :
    ∀ (s : State) (dt : ℝ), s.isLocked = true →
      (2 ≤ preClampY dt s →
        (animateStep dt s).posY = preClampY dt s ∧
        (animateStep dt s).velocity.y = (stepVelocity dt s).y ∧
        (animateStep dt s).canJump = s.canJump) ∧
      ((animateStep dt s).canJump = true →
        s.canJump = true ∨ preClampY dt s < 2) := by
  intro s dt hl
  constructor
  · intro hge
    obtain ⟨hv, hy, hc⟩ := animateStep_locked_noClamp dt s hl hge
    exact ⟨hy, by rw [hv], hc⟩
  · intro hc
    by_cases hpy : preClampY dt s < 2
    · exact Or.inr hpy
    · left
      obtain ⟨_, _, hcj⟩ := animateStep_locked_noClamp dt s hl (not_lt.mp hpy)
      rw [← hcj]
      exact hc

/-- Witness for C10: from `apexState` a frame with `dt = 1/10` lands the
camera exactly at `y = 2`; the clamp does not fire, `velocity.y` stays at
its (negative) post-gravity value and `canJump` stays false. -/
theorem claim10_strict_clamp_witness :
    (animateStep (1/10) apexState).posY = preClampY (1/10) apexState ∧
    (animateStep (1/10) apexState).velocity.y = (stepVelocity (1/10) apexState).y ∧
    (animateStep (1/10) apexState).canJump = apexState.canJump :=
  (claim10_strict_clamp apexState (1/10) rfl).1 (by
    rw [preClampY, stepVelocity_y]
    norm_num [apexState, initState, gravity])

/-- C6: the computed input direction has unit length whenever a
non-cancelling flag combination is set (diagonals included), and is the
zero vector when no relevant flag is set or opposing flags cancel. -/
theorem claim6_direction_unit :
    ∀ f b l r : Bool,
      ((f ≠ b ∨ l ≠ r) → Vec3.len (inputDirection f b l r) = 1) ∧
      (¬(f ≠ b ∨ l ≠ r) → inputDirection f b l r = ⟨0, 0, 0⟩) := by
  intro f b l r
  constructor
  · intro hne
    unfold inputDirection
    apply Vec3.len_normalize
    unfold Vec3.len
    rw [Ne, Real.sqrt_eq_zero']
    push_neg
    dsimp only
    cases f <;> cases b <;> cases l <;> cases r <;>
      simp_all [boolToReal]
  · intro hcan
    push_neg at hcan
    obtain ⟨hfb, hlr⟩ := hcan
    cases f <;> cases b <;> cases l <;> cases r <;>
      simp_all [inputDirection, Vec3.normalize, Vec3.len, boolToReal]

/-- Witness for C6: the forward-right diagonal direction has length 1, and
the forward-backward cancelling combination gives the zero vector. -/
theorem claim6_direction_unit_witness :
    Vec3.len (inputDirection true false false true) = 1 ∧
    inputDirection true true false false = ⟨0, 0, 0⟩ :=
  ⟨(claim6_direction_unit true false false true).1 (Or.inl (by simp)),
   (claim6_direction_unit true true false false).2 (by simp)⟩

/-- C7: the velocity-update phase of an integration step agrees exactly
with the spec's reference definition: damping by `component * 10.0 * dt`
per lateral component, gravity `30.0 * dt` subtracted unconditionally, and
`-direction.axis * effectiveSpeed * dt` added per active axis with the
effective speed 50.0, doubled to 100.0 while sprinting. -/
theorem claim7_velocity_update :
    ∀ (dt : ℝ) (s : State), stepVelocity dt s = specVelocityUpdate dt s := by
  intro dt s
  apply Vec3.eq_of
  · show (stepVelocity dt s).x = (specVelocityUpdate dt s).x
    unfold stepVelocity specVelocityUpdate speed sprintMultiplier
    dsimp only
    by_cases hs : s.isSprinting = true <;>
      by_cases hlr : (s.moveLeft = true) ∨ s.moveRight = true <;>
        simp [hs, hlr] <;> ring
  · show (stepVelocity dt s).y = (specVelocityUpdate dt s).y
    unfold stepVelocity specVelocityUpdate gravity
    rfl
  · show (stepVelocity dt s).z = (specVelocityUpdate dt s).z
    unfold stepVelocity specVelocityUpdate speed sprintMultiplier
    dsimp only
    by_cases hs : s.isSprinting = true <;>
      by_cases hfb : (s.moveForward = true) ∨ s.moveBackward = true <;>
        simp [hs, hfb] <;> ring

/-- C4 counterexample: the claimed equivalence between `canJump` and
resting at ground height fails at the (reachable) initial state, where the
camera is at `y = 2` but `canJump` is false. -/
theorem claim4_counterexample :
    Reachable initState ∧ initState.posY = 2 ∧ initState.canJump = false :=
  ⟨Reachable.init, rfl, rfl⟩

/-- C4 (amended): in every reachable state `canJump = true` implies that
the camera rests at ground height 2; the converse implication does not
hold. -/
theorem claim4_grounded_inv :
    ∀ s : State, Reachable s → s.canJump = true → s.posY = 2 :=
  fun _ hs hc => (reachable_groundInv hs hc).1

/-- Witness for C4 (amended): after engaging the lock at the initial state
and running one one-second frame, the clamp has set `canJump`, and the
amended invariant places the camera at `y = 2`. -/
theorem claim4_grounded_inv_witness : landedState.posY = 2 := by
  have hlock : Reachable { initState with isLocked := true } := by
    have h := Reachable.step Event.lock Reachable.init trivial
    simpa [applyEvent] using h
  have hreach : Reachable landedState := by
    have h := Reachable.step (Event.frame 1) hlock (by norm_num [Event.valid])
    simpa [applyEvent, landedState] using h
  have hcj : landedState.canJump = true :=
    (animateStep_locked_clamp 1 { initState with isLocked := true } rfl (by
        rw [preClampY, stepVelocity_y]
        norm_num [initState, gravity])).2.2
  exact claim4_grounded_inv landedState hreach hcj

/-- C5 counterexample: with all movement flags false, lateral velocity
`(1, 0)` and the non-negative frame time `dt = 3/10`, the lateral speed
grows from 1 to 2 in one engaged step, so it does not strictly decrease
(nor stay at 0) for every `dt ≥ 0`. -/
theorem claim5_counterexample :
    lateralMag driftState.velocity = 1 ∧
    lateralMag (animateStep (3/10) driftState).velocity = 2 := by
  constructor
  · norm_num [lateralMag, driftState, initState, Real.sqrt_one]
  · have hx : (animateStep (3/10) driftState).velocity.x = -2 := by
      rw [animateStep_velocity_x _ _ rfl, stepVelocity_x_noKeys _ _ rfl rfl]
      norm_num [driftState, initState]
    have hz : (animateStep (3/10) driftState).velocity.z = 0 := by
      rw [animateStep_velocity_z _ _ rfl, stepVelocity_z_noKeys _ _ rfl rfl]
      norm_num [driftState, initState]
    rw [lateralMag, hx, hz]
    rw [show ((-2 : ℝ)) ^ 2 + (0 : ℝ) ^ 2 = 2 ^ 2 by norm_num]
    exact Real.sqrt_sq (by norm_num)

/-- C5 (amended): with all movement flags false each lateral velocity
component is mapped to `v - v*10.0*dt` for every `dt`, and the lateral
speed strictly decreases when nonzero provided `0 < dt < 1/5` (it stays at
0 if already 0); for `dt` outside that range the decrease can fail. -/
theorem claim5_damping :
    ∀ (s : State) (dt : ℝ), s.isLocked = true →
      s.moveForward = false → s.moveBackward = false →
      s.moveLeft = false → s.moveRight = false →
      ((animateStep dt s).velocity.x =
          s.velocity.x - s.velocity.x * 10.0 * dt ∧
        (animateStep dt s).velocity.z =
          s.velocity.z - s.velocity.z * 10.0 * dt) ∧
      (0 < dt → dt < 1/5 → lateralMag s.velocity ≠ 0 →
        lateralMag (animateStep dt s).velocity < lateralMag s.velocity) ∧
      (lateralMag s.velocity = 0 →
        lateralMag (animateStep dt s).velocity = 0) := by
  intro s dt hl hf hb hml hmr
  have hx : (animateStep dt s).velocity.x =
      s.velocity.x - s.velocity.x * 10.0 * dt := by
    rw [animateStep_velocity_x dt s hl, stepVelocity_x_noKeys dt s hml hmr]
  have hz : (animateStep dt s).velocity.z =
      s.velocity.z - s.velocity.z * 10.0 * dt := by
    rw [animateStep_velocity_z dt s hl, stepVelocity_z_noKeys dt s hf hb]
  have hscale : lateralMag (animateStep dt s).velocity =
      |1 - 10.0 * dt| * lateralMag s.velocity := by
    rw [lateralMag, hx, hz,
        show s.velocity.x - s.velocity.x * 10.0 * dt =
          s.velocity.x * (1 - 10.0 * dt) by ring,
        show s.velocity.z - s.velocity.z * 10.0 * dt =
          s.velocity.z * (1 - 10.0 * dt) by ring,
        sqrt_scale, lateralMag]
  refine ⟨⟨hx, hz⟩, ?_, ?_⟩
  · intro hdt0 hdt5 hmag
    have hmpos : 0 < lateralMag s.velocity :=
      lt_of_le_of_ne (Real.sqrt_nonneg _) (Ne.symm hmag)
    have habs : |1 - 10.0 * dt| < 1 := by
      rw [abs_lt]
      constructor <;> linarith
    rw [hscale]
    nlinarith [abs_nonneg (1 - 10.0 * dt)]
  · intro h0
    rw [hscale, h0, mul_zero]

/-- Witness for C5 (amended): from `driftState` with `dt = 1/10` the
lateral component follows the damping formula and the lateral speed
strictly decreases. -/
theorem claim5_damping_witness :
    (animateStep (1/10) driftState).velocity.x =
      driftState.velocity.x - driftState.velocity.x * 10.0 * (1/10) ∧
    lateralMag (animateStep (1/10) driftState).velocity <
      lateralMag driftState.velocity :=
  ⟨((claim5_damping driftState (1/10) rfl rfl rfl rfl rfl).1).1,
   (claim5_damping driftState (1/10) rfl rfl rfl rfl rfl).2.1
     (by norm_num) (by norm_num)
     (by norm_num [lateralMag, driftState, initState, Real.sqrt_one])⟩

/-- C8 counterexample: with all movement flags false and the non-negative
frame time `dt = 3/20`, a positive lateral component becomes negative in
one engaged step, so repeated steps can change the sign of a lateral
component. -/
theorem claim8_counterexample :
    0 < driftState.velocity.x ∧
    (animateStep (3/20) driftState).velocity.x < 0 := by
  constructor
  · norm_num [driftState, initState]
  · rw [animateStep_velocity_x _ _ rfl, stepVelocity_x_noKeys _ _ rfl rfl]
    norm_num [driftState, initState]

/-- C8 (amended): with all movement flags false and every frame time in
`[0, 1/10]`, iterated integration steps keep each lateral velocity
component on its original side of zero and move it weakly toward zero. -/
theorem claim8_no_overshoot :
    ∀ (dts : List ℝ) (s : State),
      s.moveForward = false → s.moveBackward = false →
      s.moveLeft = false → s.moveRight = false →
      (∀ dt ∈ dts, 0 ≤ dt ∧ dt ≤ 1/10) →
      ((0 ≤ s.velocity.x →
          0 ≤ (runFrames s dts).velocity.x ∧
            (runFrames s dts).velocity.x ≤ s.velocity.x) ∧
       (s.velocity.x ≤ 0 →
          (runFrames s dts).velocity.x ≤ 0 ∧
            s.velocity.x ≤ (runFrames s dts).velocity.x)) ∧
      ((0 ≤ s.velocity.z →
          0 ≤ (runFrames s dts).velocity.z ∧
            (runFrames s dts).velocity.z ≤ s.velocity.z) ∧
       (s.velocity.z ≤ 0 →
          (runFrames s dts).velocity.z ≤ 0 ∧
            s.velocity.z ≤ (runFrames s dts).velocity.z)) := by
  intro dts
  induction dts with
  | nil =>
    intro s _ _ _ _ _
    simp only [runFrames]
    exact ⟨⟨fun h => ⟨h, le_refl _⟩, fun h => ⟨h, le_refl _⟩⟩,
           ⟨fun h => ⟨h, le_refl _⟩, fun h => ⟨h, le_refl _⟩⟩⟩
  | cons dt rest ih =>
    intro s hf hb hl hr hmem
    have hdt : 0 ≤ dt ∧ dt ≤ 1/10 := hmem dt (List.mem_cons_self dt rest)
    have hrest : ∀ d ∈ rest, 0 ≤ d ∧ d ≤ 1/10 :=
      fun d hd => hmem d (List.mem_cons_of_mem dt hd)
    have hflags := animateStep_flags dt s
    have hstep := step_lateral_bounds dt s hf hb hl hr hdt.1 hdt.2
    have hih := ih (animateStep dt s)
      (by rw [hflags.1]; exact hf) (by rw [hflags.2.1]; exact hb)
      (by rw [hflags.2.2.1]; exact hl) (by rw [hflags.2.2.2.1]; exact hr)
      hrest
    simp only [runFrames]
    refine ⟨⟨?_, ?_⟩, ⟨?_, ?_⟩⟩
    · intro hx
      have h1 := hstep.1.1 hx
      have h2 := hih.1.1 h1.1
      exact ⟨h2.1, le_trans h2.2 h1.2⟩
    · intro hx
      have h1 := hstep.1.2 hx
      have h2 := hih.1.2 h1.1
      exact ⟨h2.1, le_trans h1.2 h2.2⟩
    · intro hz2
      have h1 := hstep.2.1 hz2
      have h2 := hih.2.1 h1.1
      exact ⟨h2.1, le_trans h2.2 h1.2⟩
    · intro hz2
      have h1 := hstep.2.2 hz2
      have h2 := hih.2.2 h1.1
      exact ⟨h2.1, le_trans h1.2 h2.2⟩

/-- Witness for C8 (amended): two frames of `1/20` and `1/10` seconds from
`driftState` keep the positive lateral component non-negative and no
larger than its start value. -/
theorem claim8_no_overshoot_witness :
    0 ≤ (runFrames driftState [1/20, 1/10]).velocity.x ∧
      (runFrames driftState [1/20, 1/10]).velocity.x ≤
        driftState.velocity.x :=
  (claim8_no_overshoot [1/20, 1/10] driftState rfl rfl rfl rfl (by
      intro d hd
      simp only [List.mem_cons, List.not_mem_nil, or_false] at hd
      rcases hd with h | h <;> subst h <;> norm_num)).1.1
    (by norm_num [driftState, initState])

end Metaverse
